import Mathlib

/-!
Shallow embedding of `github-stats-rs` (src/search.rs, src/user.rs):
the `Search` request value, its pagination operations, its `Display`
rendering, and the decode pipeline of `Search::search`. The query
builder module (`mod query`) is declared in `src/search.rs` but its
file is not present under `src/`, so `Query` is modelled from the spec.
-/

namespace GithubStats

/-- The maximum value of Rust's `usize` on a 64-bit target
(`std::usize::MAX`); `usize` values are embedded as `Nat`. -/
def USIZE_MAX : Nat := 2 ^ 64 - 1

/-- A JSON value, embedding `serde_json::Value`. -/
inductive Json where
  | null
  | bool (b : Bool)
  | num (n : Int)
  | str (s : String)
  | arr (elems : List Json)
  | obj (fields : List (String × Json))
deriving Repr

/-- Modelled from the spec: the query-builder module (`mod query;` in
`src/search.rs`) is absent from `src/`. Per the spec, a `Query` is an
ordered collection of qualifiers, constructed empty and extended by
fluent builder calls, each appending one token. -/
structure Query where
  qualifiers : List String
deriving Repr, DecidableEq

/-- Modelled from the spec: `new()` returns an empty `Query`. -/
def Query.new : Query := ⟨[]⟩

/-- Modelled from the spec: `repo(owner, name)` appends the qualifier
token `repo:owner/name`. -/
def Query.repo (q : Query) (owner name : String) : Query :=
  ⟨q.qualifiers ++ ["repo:" ++ owner ++ "/" ++ name]⟩

/-- Modelled from the spec: `is(value)` appends an `is:value` token
(repeatable). -/
def Query.is (q : Query) (value : String) : Query :=
  ⟨q.qualifiers ++ ["is:" ++ value]⟩

/-- Modelled from the spec: `to_string()` joins all accumulated tokens
with a single space, in the order they were added. -/
def Query.render (q : Query) : String :=
  String.intercalate " " q.qualifiers

/-- One fluent builder call on a `Query` (the qualifier families shown
in the spec). -/
inductive BuilderOp where
  | repo (owner name : String)
  | is (value : String)
deriving Repr, DecidableEq

/-- Applies one builder call. -/
def Query.applyOp (q : Query) : BuilderOp → Query
  | .repo owner name => q.repo owner name
  | .is value => q.is value

/-- A `Query` built by a sequence of fluent builder calls starting from
`Query::new()`. -/
def buildQuery (ops : List BuilderOp) : Query :=
  ops.foldl Query.applyOp Query.new

/-- The `Search` struct of `src/search.rs`: a search area, the captured
rendered query string, and pagination parameters. -/
structure Search where
  search_area : String
  query : String
  per_page : Nat
  page : Nat
deriving Repr, DecidableEq

/-- `Search::new(area, query)`: stores the area, captures
`query.to_string()`, and sets `per_page = 10`, `page = 1`. -/
def Search.new (area : String) (query : Query) : Search :=
  { search_area := area
    query := query.render
    per_page := 10
    page := 1 }

/-- `Search::get_query`: returns the captured query string. -/
def Search.get_query (s : Search) : String :=
  s.query

/-- `Search::per_page(n)` (fluent setter; named `setPerPage` here since
the field already carries the source name `per_page`). -/
def Search.setPerPage (s : Search) (per_page : Nat) : Search :=
  { s with per_page := per_page }

/-- `Search::page(n)` (fluent setter; named `setPage` here since the
field already carries the source name `page`). -/
def Search.setPage (s : Search) (page : Nat) : Search :=
  { s with page := page }

/-- `Search::next_page`: `if self.page < std::usize::MAX { self.page += 1 }`. -/
def Search.next_page (s : Search) : Search :=
  if s.page < USIZE_MAX then { s with page := s.page + 1 } else s

/-- `Search::prev_page`: `if self.page > std::usize::MIN { self.page -= 1 }`
where `std::usize::MIN = 0`. -/
def Search.prev_page (s : Search) : Search :=
  if s.page > 0 then { s with page := s.page - 1 } else s

/-- The `Display` implementation for `Search`: writes the URL
`https://api.github.com/search/` followed by the area, `?per_page=`,
the decimal of `per_page`, `&page=`, the decimal of `page`, `&q=`, and
the raw query string. -/
def Search.render (s : Search) : String :=
  "https://api.github.com/search/" ++ s.search_area ++ "?per_page=" ++
    toString s.per_page ++ "&page=" ++ toString s.page ++ "&q=" ++ s.query

/-- The `SearchResults` struct: `total_count: u64` and
`items: Vec<serde_json::Value>`, derived `Deserialize`. -/
structure SearchResults where
  total_count : Nat
  items : List Json
deriving Repr

/-- Field lookup in a JSON object, first occurrence wins. -/
def Json.lookupField : List (String × Json) → String → Option Json
  | [], _ => none
  | (k, v) :: rest, key => if k = key then some v else Json.lookupField rest key

/-- Serde deserialization of a `u64` from a JSON value: a number that is
a non-negative integer fitting in 64 bits; anything else is a decode
error. -/
def decodeU64 : Json → Except String Nat
  | .num n =>
    if 0 ≤ n ∧ n ≤ ((2 : Int) ^ 64 - 1) then .ok n.toNat
    else .error "u64 out of range"
  | _ => .error "expected u64"

/-- Serde deserialization of `Vec<Value>`: a JSON array, kept as-is. -/
def decodeItems : Json → Except String (List Json)
  | .arr xs => .ok xs
  | _ => .error "expected array"

/-- Serde-derived deserialization of `SearchResults`: requires a JSON
object with fields `total_count` (a `u64`) and `items` (an array);
extra top-level fields are ignored. -/
def decodeSearchResults (j : Json) : Except String SearchResults :=
  match j with
  | .obj fields =>
    match Json.lookupField fields "total_count" with
    | none => .error "missing field total_count"
    | some tc =>
      match decodeU64 tc with
      | .error e => .error e
      | .ok n =>
        match Json.lookupField fields "items" with
        | none => .error "missing field items"
        | some it =>
          match decodeItems it with
          | .error e => .error e
          | .ok xs => .ok ⟨n, xs⟩
  | _ => .error "expected object"

/-- The two error kinds `Search::search` can surface: a transport
failure from `reqwest::get`, or a decode failure from `.json()`. -/
inductive SearchError where
  | transport (msg : String)
  | decode (msg : String)
deriving Repr, DecidableEq

/-- The outcome of the HTTP call `reqwest::get(url)` composed with body
reading: either the network call failed, or it delivered a body that
parses as JSON (`body (some j)`) or is not valid JSON (`body none`). -/
inductive HttpOutcome where
  | netFail (msg : String)
  | body (parsed : Option Json)
deriving Repr

/-- `Search::search`, parameterised by the transport outcome:
`reqwest::get(&self.to_string())?.json()?` propagates a transport error,
fails with a decode error on a non-JSON body or a wrong-shape JSON body,
and otherwise returns the deserialized `SearchResults`. -/
def Search.search (_s : Search) (response : HttpOutcome) :
    Except SearchError SearchResults :=
  match response with
  | .netFail msg => .error (.transport msg)
  | .body none => .error (.decode "invalid JSON body")
  | .body (some j) =>
    match decodeSearchResults j with
    | .error e => .error (.decode e)
    | .ok r => .ok r

/-- Helper: the URL rendered for a freshly constructed `Search` has the
default pagination parameters already folded into the literal. -/
theorem Search.render_new (area : String) (q : Query) :
    (Search.new area q).render =
      "https://api.github.com/search/" ++ area ++ "?per_page=10&page=1&q=" ++ q.render := by
  have h10 : toString (10 : Nat) = "10" := rfl
  have h1 : toString (1 : Nat) = "1" := rfl
  show "https://api.github.com/search/" ++ area ++ "?per_page=" ++ toString (10 : Nat) ++
      "&page=" ++ toString (1 : Nat) ++ "&q=" ++ q.render = _
  rw [h10, h1]
  simp only [String.append_assoc]
  rfl

/-- C1: rendering a `Search` (the `Display` implementation, as used by
`search()`) produces exactly `https://api.github.com/search/` + area +
`?per_page=` + per_page + `&page=` + page + `&q=` + query, with the
query embedded raw; in particular `Search::new(area, q)` with no
further configuration renders
`https://api.github.com/search/` + area + `?per_page=10&page=1&q=` + query. -/
theorem search_display_exact_format (s : Search) (area : String) (q : Query) :
    s.render = "https://api.github.com/search/" ++ s.search_area ++ "?per_page=" ++
      toString s.per_page ++ "&page=" ++ toString s.page ++ "&q=" ++ s.query ∧
    (Search.new area q).render =
      "https://api.github.com/search/" ++ area ++ "?per_page=10&page=1&q=" ++ q.render :=
  ⟨rfl, Search.render_new area q⟩

/-- C2: `next_page()` increments `page` by exactly 1 below
`usize::MAX`, leaves it unchanged at `usize::MAX`, and is monotonically
non-decreasing in every case. -/
theorem next_page_saturates (s : Search) :
    (s.page < USIZE_MAX → (s.next_page).page = s.page + 1) ∧
    (s.page = USIZE_MAX → (s.next_page).page = s.page) ∧
    s.page ≤ (s.next_page).page := by
  unfold Search.next_page
  refine ⟨fun h => ?_, fun h => ?_, ?_⟩
  · rw [if_pos h]
  · rw [if_neg (by omega)]
  · split <;> simp

/-- C2 witness: at `page = 1` the successor page is 2, and at
`page = usize::MAX` the page is unchanged. -/
theorem next_page_saturates_witness :
    ((Search.mk "issues" "q" 10 1).next_page).page = 1 + 1 ∧
    ((Search.mk "issues" "q" 10 USIZE_MAX).next_page).page = USIZE_MAX :=
  ⟨(next_page_saturates (Search.mk "issues" "q" 10 1)).1 (by decide),
   (next_page_saturates (Search.mk "issues" "q" 10 USIZE_MAX)).2.1 rfl⟩

/-- C3: `prev_page()` decrements `page` by exactly 1 above 0, leaves it
unchanged at 0 (the representable minimum, `std::usize::MIN`), and in
particular takes `page = 1` to `page = 0`, not stopping at the logical
pagination minimum 1. -/
theorem prev_page_saturates (s : Search) :
    (0 < s.page → (s.prev_page).page = s.page - 1) ∧
    (s.page = 0 → (s.prev_page).page = s.page) ∧
    (s.page = 1 → (s.prev_page).page = 0) := by
  unfold Search.prev_page
  refine ⟨fun h => ?_, fun h => ?_, fun h => ?_⟩
  · rw [if_pos h]
  · rw [if_neg (by omega)]
  · rw [if_pos (by omega)]
    simp [h]

/-- C3 witness: `prev_page` takes page 2 to 1, leaves page 0 at 0, and
takes page 1 to 0. -/
theorem prev_page_saturates_witness :
    ((Search.mk "issues" "q" 10 2).prev_page).page = 2 - 1 ∧
    ((Search.mk "issues" "q" 10 0).prev_page).page = 0 ∧
    ((Search.mk "issues" "q" 10 1).prev_page).page = 0 :=
  ⟨(prev_page_saturates (Search.mk "issues" "q" 10 2)).1 (by decide),
   (prev_page_saturates (Search.mk "issues" "q" 10 0)).2.1 rfl,
   (prev_page_saturates (Search.mk "issues" "q" 10 1)).2.2 rfl⟩

/-- C4: `Search::new(area, q)` sets `per_page = 10`, `page = 1`, and
captures the rendered string of `q` at construction time; `get_query()`
returns exactly that captured string. Extending the originating query
afterwards yields a different rendered string that the
already-constructed `Search` does not follow, shown on a concrete
instance. -/
theorem new_captures_query (area : String) (q : Query) :
    (Search.new area q).per_page = 10 ∧
    (Search.new area q).page = 1 ∧
    (Search.new area q).get_query = q.render ∧
    (Search.new "issues" (Query.new.is "pr")).get_query = "is:pr" ∧
    ((Query.new.is "pr").is "merged").render = "is:pr is:merged" ∧
    (Search.new "issues" (Query.new.is "pr")).get_query ≠
      ((Query.new.is "pr").is "merged").render :=
  ⟨rfl, rfl, rfl, rfl, rfl, by decide⟩

/-- C6: every mutator of a constructed `Search` — `page(n)`,
`per_page(n)`, `next_page()`, `prev_page()` — leaves `search_area` and
`query` unchanged, and each setter also leaves the other pagination
field unchanged. -/
theorem mutators_touch_only_pagination (s : Search) (n : Nat) :
    ((s.setPage n).search_area = s.search_area ∧ (s.setPage n).query = s.query ∧
      (s.setPage n).per_page = s.per_page) ∧
    ((s.setPerPage n).search_area = s.search_area ∧ (s.setPerPage n).query = s.query ∧
      (s.setPerPage n).page = s.page) ∧
    ((s.next_page).search_area = s.search_area ∧ (s.next_page).query = s.query ∧
      (s.next_page).per_page = s.per_page) ∧
    ((s.prev_page).search_area = s.search_area ∧ (s.prev_page).query = s.query ∧
      (s.prev_page).per_page = s.per_page) := by
  unfold Search.setPage Search.setPerPage Search.next_page Search.prev_page
  refine ⟨⟨rfl, rfl, rfl⟩, ⟨rfl, rfl, rfl⟩, ?_, ?_⟩ <;>
    split <;> exact ⟨rfl, rfl, rfl⟩

/-- C7: the fluent setters store exactly the given value, with no
validation, and the stored value is passed through verbatim to the
rendered request URL. -/
theorem setters_store_exactly (s : Search) (n : Nat) :
    (s.setPerPage n).per_page = n ∧
    (s.setPage n).page = n ∧
    (s.setPage n).render = "https://api.github.com/search/" ++ s.search_area ++
      "?per_page=" ++ toString s.per_page ++ "&page=" ++ toString n ++ "&q=" ++ s.query ∧
    (s.setPerPage n).render = "https://api.github.com/search/" ++ s.search_area ++
      "?per_page=" ++ toString n ++ "&page=" ++ toString s.page ++ "&q=" ++ s.query :=
  ⟨rfl, rfl, rfl, rfl⟩

/-- C8: rendering a `Query` built by any sequence of qualifier
additions is deterministic — it is a pure function of the accumulated
qualifiers, so rendering twice without intervening mutation yields
identical strings. -/
theorem query_render_deterministic (ops : List BuilderOp) (q q' : Query) :
    (buildQuery ops).render = (buildQuery ops).render ∧
    (q.qualifiers = q'.qualifiers → q.render = q'.render) :=
  ⟨rfl, fun h => by unfold Query.render; rw [h]⟩

/-- C8 witness: instantiated on the spec's example builder sequence. -/
theorem query_render_deterministic_witness :
    (buildQuery [BuilderOp.repo "rust-lang" "rust", BuilderOp.is "pr"]).render =
      (buildQuery [BuilderOp.repo "rust-lang" "rust", BuilderOp.is "pr"]).render ∧
    Query.new.render = Query.new.render :=
  ⟨(query_render_deterministic [BuilderOp.repo "rust-lang" "rust", BuilderOp.is "pr"]
      Query.new Query.new).1,
   (query_render_deterministic [] Query.new Query.new).2 rfl⟩

/-- C9: `Search::new` performs no validation of the area argument: for
every string `a`, construction succeeds with `search_area = a`, and the
rendered URL contains `a` verbatim after `/search/`. -/
theorem new_accepts_any_area (area : String) (q : Query) :
    (Search.new area q).search_area = area ∧
    (Search.new area q).render =
      "https://api.github.com/search/" ++ area ++ "?per_page=10&page=1&q=" ++ q.render :=
  ⟨rfl, Search.render_new area q⟩

/-- C10: below `usize::MAX`, `next_page` then `prev_page` restores the
page; above 0 (with the page representable, as every `usize` is),
`prev_page` then `next_page` restores the page. -/
theorem page_moves_mutually_inverse (s : Search) :
    (s.page < USIZE_MAX → ((s.next_page).prev_page).page = s.page) ∧
    (0 < s.page → s.page ≤ USIZE_MAX → ((s.prev_page).next_page).page = s.page) := by
  constructor
  · intro h
    unfold Search.next_page Search.prev_page
    rw [if_pos h]
    simp
  · intro h0 hM
    unfold Search.prev_page Search.next_page
    rw [if_pos h0]
    rw [if_pos (show ({s with page := s.page - 1} : Search).page < USIZE_MAX by
      simp only
      omega)]
    simp only
    omega

/-- C10 witness: round trips at page 1 in both orders. -/
theorem page_moves_mutually_inverse_witness :
    (((Search.mk "issues" "q" 10 1).next_page).prev_page).page = 1 ∧
    (((Search.mk "issues" "q" 10 1).prev_page).next_page).page = 1 :=
  ⟨(page_moves_mutually_inverse (Search.mk "issues" "q" 10 1)).1 (by decide),
   (page_moves_mutually_inverse (Search.mk "issues" "q" 10 1)).2 (by decide) (by decide)⟩

/-- Helper: when `decodeSearchResults` succeeds, the input was a JSON
object whose `total_count` field decoded to exactly the result's
`total_count` and whose `items` field is exactly the result's items. -/
theorem decodeSearchResults_ok_shape (j : Json) (r : SearchResults)
    (h : decodeSearchResults j = .ok r) :
    ∃ fields, j = .obj fields ∧
      (∃ tc, Json.lookupField fields "total_count" = some tc ∧
        decodeU64 tc = .ok r.total_count) ∧
      (∃ it, Json.lookupField fields "items" = some it ∧ it = .arr r.items) := by
  cases j <;> simp only [decodeSearchResults] at h <;> try exact absurd h (by simp)
  case obj fields =>
  refine ⟨fields, rfl, ?_⟩
  cases htc : Json.lookupField fields "total_count" with
  | none => rw [htc] at h; exact absurd h (by simp)
  | some tc =>
  rw [htc] at h
  dsimp only at h
  cases hdu : decodeU64 tc with
  | error e => rw [hdu] at h; exact absurd h (by simp)
  | ok n =>
  rw [hdu] at h
  dsimp only at h
  cases hit : Json.lookupField fields "items" with
  | none => rw [hit] at h; exact absurd h (by simp)
  | some it =>
  rw [hit] at h
  dsimp only at h
  cases hdi : decodeItems it with
  | error e => rw [hdi] at h; exact absurd h (by simp)
  | ok xs =>
  rw [hdi] at h
  dsimp only at h
  simp only [Except.ok.injEq] at h
  subst h
  refine ⟨⟨tc, ?_, hdu⟩, it, ?_, ?_⟩
  · rfl
  · rfl
  · cases it
    case arr elems =>
      simp only [decodeItems, Except.ok.injEq] at hdi
      subst hdi
      rfl
    all_goals simp only [decodeItems] at hdi
    all_goals exact Except.noConfusion hdi

/-- C5: `search()` either fully succeeds with a `SearchResults` whose
`total_count` and `items` are exactly the corresponding fields
deserialized from the JSON response body (extra top-level fields
ignored, as on the concrete instance with an `incomplete_results`
field), or fully fails with a transport or decode error; a non-JSON
body in particular yields a decode error, never a panic or a partial
result. -/
theorem search_all_or_nothing (s : Search) (response : HttpOutcome) :
    ((∃ e, s.search response = .error e) ∨
      (∃ j r, response = .body (some j) ∧ s.search response = .ok r ∧
        ∃ fields, j = .obj fields ∧
          (∃ tc, Json.lookupField fields "total_count" = some tc ∧
            decodeU64 tc = .ok r.total_count) ∧
          (∃ it, Json.lookupField fields "items" = some it ∧ it = .arr r.items))) ∧
    (response = .body none → s.search response = .error (.decode "invalid JSON body")) ∧
    (Search.new "issues" Query.new).search
        (HttpOutcome.body (some (Json.obj
          [("total_count", Json.num 42), ("incomplete_results", Json.bool false),
           ("items", Json.arr [Json.null, Json.null])]))) =
      .ok ⟨42, [Json.null, Json.null]⟩ := by
  refine ⟨?_, fun h => by subst h; rfl, rfl⟩
  cases response with
  | netFail msg => exact .inl ⟨.transport msg, rfl⟩
  | body parsed =>
    cases parsed with
    | none => exact .inl ⟨.decode "invalid JSON body", rfl⟩
    | some j =>
      cases hd : decodeSearchResults j with
      | error e =>
        refine .inl ⟨.decode e, ?_⟩
        simp only [Search.search, hd]
      | ok r =>
        refine .inr ⟨j, r, rfl, ?_, decodeSearchResults_ok_shape j r hd⟩
        simp only [Search.search, hd]

/-- C5 witness: a non-JSON body produces exactly a decode error. -/
theorem search_all_or_nothing_witness :
    (Search.new "issues" Query.new).search (HttpOutcome.body none) =
      .error (.decode "invalid JSON body") :=
  (search_all_or_nothing (Search.new "issues" Query.new) (HttpOutcome.body none)).2.1 rfl

end GithubStats
